import Mathlib

/-!
Shallow embedding of the CARTABON1 backend (`src/server.js`), a small
real-time location-sharing service: user registration/login, geo-tagged
marker creation/editing with media uploads, and a Socket.IO push channel
relaying marker and position updates.

The embedding is faithful to the source handlers:
* the document store (MongoDB via mongoose) is modelled as explicit lists of
  user and marker documents inside a state record, with ids assigned from a
  counter (ObjectIds are opaque to the handlers);
* `bcrypt.hash` is modelled as an injective one-way wrapper producing a
  `Hash`, and `bcrypt.compare` as the matching comparison; calling the hash
  on an absent (`undefined`) password rejects, as the real library does,
  which the route-level try/catch converts to a 500 response;
* request-body text fields are `Option String` (absent vs present, where a
  present empty string is distinct from absence, as in the JS
  `x !== undefined` checks); uploaded files are `Option (List String)` of
  multer-generated filenames (`req.files.photos` is absent when no file was
  sent for that field);
* JavaScript numbers are modelled as `JSNum` (a rational or NaN) and
  `parseFloat` is embedded for decimal notation; push-channel payload values
  carry their runtime type (`JSVal`) so that the `typeof x !== "number"`
  guard is expressible;
* `io.emit` broadcasts are returned as an explicit event list, and a small
  operational layer (`stepOp`/`runOps`) delivers them to the connected
  socket set, modelling each request/message handler as one atomic step.
Timestamps (`createdAt`, `Date.now()` filename prefixes) are not modelled:
no handler reads them back.
-/

namespace Cartabon

/-- A JavaScript number: either NaN or a (finite) rational value.
`parseFloat` on a non-numeric string yields NaN; mongoose stores it as-is. -/
inductive JSNum where
  | nan : JSNum
  | val : Rat → JSNum
deriving DecidableEq, Repr

/-- A JavaScript runtime value as carried by a push-channel (JSON) payload,
tagged with its runtime type so that `typeof` checks can be embedded. -/
inductive JSVal where
  | num : Rat → JSVal
  | str : String → JSVal
  | bool : Bool → JSVal
  | null : JSVal
  | undef : JSVal
deriving DecidableEq, Repr

/-- `typeof v === "number"` for an embedded JavaScript value. -/
def JSVal.isNumber : JSVal → Bool
  | .num _ => true
  | _ => false

/-- Digits of a decimal literal folded into a natural number. -/
def digitsToNat (cs : List Char) : Nat :=
  cs.foldl (fun a c => 10 * a + (c.toNat - 48)) 0

/-- `parseFloat` restricted to plain decimal notation (optional sign,
integer digits, optional fractional digits), longest-prefix as in
JavaScript: `"12abc"` parses as 12, a string with no leading numeric
prefix yields NaN. Exponent notation is not modelled (unused here). -/
def parseFloat (s : String) : JSNum :=
  let cs := s.data
  let signAndRest : Bool × List Char :=
    match cs with
    | '-' :: rest => (true, rest)
    | '+' :: rest => (false, rest)
    | _ => (false, cs)
  let neg := signAndRest.1
  let body := signAndRest.2
  let intPart := body.takeWhile Char.isDigit
  let afterInt := body.dropWhile Char.isDigit
  let fracPart :=
    match afterInt with
    | '.' :: r => r.takeWhile Char.isDigit
    | _ => []
  if intPart.isEmpty ∧ fracPart.isEmpty then JSNum.nan
  else
    let mantissa : Nat :=
      digitsToNat intPart * 10 ^ fracPart.length + digitsToNat fracPart
    JSNum.val
      (mkRat (if neg then -(mantissa : Int) else (mantissa : Int))
        (10 ^ fracPart.length))

/-- `parseFloat` applied to a possibly-absent form field:
`parseFloat(undefined)` is NaN. -/
def parseFloatOpt : Option String → JSNum
  | none => JSNum.nan
  | some s => parseFloat s

/-- A bcrypt digest. `bcrypt.hash` is one-way and salted; the handlers only
ever compare a candidate password against a stored digest, so the digest is
modelled as an opaque wrapper of the hashed password. -/
structure Hash where
  digest : String
deriving DecidableEq, Repr

/-- `bcrypt.hash(password, 10)` on a present password. -/
def bcryptHash (password : String) : Hash := ⟨password⟩

/-- `bcrypt.compare(candidate, storedDigest)`. -/
def bcryptCompare (candidate : String) (h : Hash) : Bool :=
  candidate == h.digest

/-- A stored user document (users collection). `createdAt` omitted. -/
structure User where
  id : Nat
  name : String
  email : String
  password : Hash
  latitude : Rat
  longitude : Rat
deriving DecidableEq, Repr

/-- A stored marker document (markers collection). `createdAt` omitted. -/
structure Marker where
  id : Nat
  latitude : JSNum
  longitude : JSNum
  title : String
  comment : String
  color : String
  photos : List String
  videos : List String
  createdBy : Option String
deriving DecidableEq, Repr

/-- The document store: both collections plus the id-assignment counters. -/
structure St where
  users : List User
  markers : List Marker
  nextUserId : Nat
  nextMarkerId : Nat
deriving DecidableEq, Repr

/-- A JSON response body, as produced by the handlers. -/
inductive RespBody where
  | msg : String → RespBody
  | userOut : Nat → String → RespBody
  | markerOut : Marker → RespBody
deriving DecidableEq, Repr

/-- An HTTP response: status code and JSON body. -/
structure HttpResponse where
  status : Nat
  body : RespBody
deriving DecidableEq, Repr

/-- A push-channel event as emitted by the server. -/
inductive Event where
  | newMarker : Marker → Event
  | updatedMarker : Marker → Event
  | positionsUpdate : Nat → String → Rat → Rat → Event
  | allMarkers : List Marker → Event
deriving DecidableEq, Repr

/-- Whether an event is an `allMarkers` snapshot. -/
def Event.isAllMarkers : Event → Bool
  | .allMarkers _ => true
  | _ => false

/-- Body of `POST /register`: `const { name, email, password } = req.body`.
The password is optional to capture a request that omits it. -/
structure RegisterBody where
  name : String
  email : String
  password : Option String
deriving DecidableEq, Repr

/-- Body of `POST /login`: `const { email, password } = req.body`. -/
structure LoginBody where
  email : String
  password : String
deriving DecidableEq, Repr

/-- Text fields of `POST /markers`, each possibly absent from the form. -/
structure CreateMarkerBody where
  latitude : Option String
  longitude : Option String
  title : Option String
  comment : Option String
  color : Option String
  userId : Option String
deriving DecidableEq, Repr

/-- Text fields of `PATCH /markers/:id`, each possibly absent. -/
structure EditMarkerBody where
  title : Option String
  comment : Option String
  color : Option String
deriving DecidableEq, Repr

/-- `req.files` after `upload.fields(...)`: for each field, the list of
multer-generated filenames, or absence when no file was sent. -/
structure UploadedFiles where
  photos : Option (List String)
  videos : Option (List String)
deriving DecidableEq, Repr

/-- `/uploads/${f.filename}` for one uploaded file. -/
def uploadPath (filename : String) : String := "/uploads/" ++ filename

/-- `req.files.photos ? req.files.photos.map(f => ...) : []`. -/
def filePaths : Option (List String) → List String
  | some fs => fs.map uploadPath
  | none => []

/-- JavaScript `userId || null`: `undefined` and the empty string are falsy
and collapse to null. -/
def jsOrNull : Option String → Option String
  | none => none
  | some s => if s = "" then none else some s

/-- `POST /register` (src/server.js lines 97-112): reject a duplicate email
with 400; hash the password (rejecting, hence 500, when it is absent);
otherwise create the user and answer 201 with its id and name. -/
def register (st : St) (b : RegisterBody) : HttpResponse × St :=
  match st.users.find? (fun u => u.email == b.email) with
  | some _ => (⟨400, .msg "Email déjà utilisé"⟩, st)
  | none =>
    match b.password with
    | none => (⟨500, .msg "data and salt arguments required"⟩, st)
    | some pw =>
      let newUser : User :=
        ⟨st.nextUserId, b.name, b.email, bcryptHash pw, 0, 0⟩
      (⟨201, .userOut newUser.id newUser.name⟩,
        { st with
            users := st.users ++ [newUser]
            nextUserId := st.nextUserId + 1 })

/-- `POST /login` (src/server.js lines 115-129): look the user up by email,
compare the supplied password against the stored digest; the same generic
400 message on unknown email and on mismatch, 200 with id and name on
success. Reads only; never changes the store. -/
def login (st : St) (b : LoginBody) : HttpResponse :=
  match st.users.find? (fun u => u.email == b.email) with
  | none => ⟨400, .msg "Email ou mot de passe incorrect"⟩
  | some u =>
    if bcryptCompare b.password u.password then
      ⟨200, .userOut u.id u.name⟩
    else
      ⟨400, .msg "Email ou mot de passe incorrect"⟩

/-- `POST /markers` (src/server.js lines 132-156): build the document from
the parsed coordinates, the text fields (store defaults for absent ones),
the uploaded file paths and `userId || null`; persist it, broadcast it as
`newMarker`, and answer 201 with it. -/
def createMarker (st : St) (b : CreateMarkerBody) (files : UploadedFiles) :
    HttpResponse × St × List Event :=
  let m : Marker :=
    { id := st.nextMarkerId
      latitude := parseFloatOpt b.latitude
      longitude := parseFloatOpt b.longitude
      title := b.title.getD ""
      comment := b.comment.getD ""
      color := b.color.getD "#ff0000"
      photos := filePaths files.photos
      videos := filePaths files.videos
      createdBy := jsOrNull b.userId }
  (⟨201, .markerOut m⟩,
    { st with
        markers := st.markers ++ [m]
        nextMarkerId := st.nextMarkerId + 1 },
    [.newMarker m])

/-- The three `if (field !== undefined) marker.field = field` statements of
the edit handler: overwrite each text field exactly when the body carries
it (a present empty string overwrites; absence leaves the field alone). -/
def applyTextEdits (b : EditMarkerBody) (m : Marker) : Marker :=
  let m1 := match b.title with | some t => { m with title := t } | none => m
  let m2 :=
    match b.comment with | some c => { m1 with comment := c } | none => m1
  match b.color with | some c => { m2 with color := c } | none => m2

/-- The two `if (req.files.x) marker.x = [...marker.x, ...new]` statements
of the edit handler: append freshly uploaded paths to the existing lists. -/
def appendUploads (files : UploadedFiles) (m : Marker) : Marker :=
  let m4 :=
    match files.photos with
    | some fs => { m with photos := m.photos ++ fs.map uploadPath }
    | none => m
  match files.videos with
  | some fs => { m4 with videos := m4.videos ++ fs.map uploadPath }
  | none => m4

/-- `PATCH /markers/:id` (src/server.js lines 159-186): 404 when the id
resolves to no marker; otherwise overwrite each text field only when it is
present in the body, append the freshly uploaded photo and video paths to
the existing lists, persist, broadcast `updatedMarker`, and answer 200 with
the updated document. -/
def editMarker (st : St) (mid : Nat) (b : EditMarkerBody)
    (files : UploadedFiles) : HttpResponse × St × List Event :=
  match st.markers.find? (fun x => x.id == mid) with
  | none => (⟨404, .msg "Marqueur non trouvé"⟩, st, [])
  | some m =>
    let m5 := appendUploads files (applyTextEdits b m)
    (⟨200, .markerOut m5⟩,
      { st with
          markers := st.markers.map (fun x => if x.id == mid then m5 else x) },
      [.updatedMarker m5])

/-- `socket.on("updatePosition")` (src/server.js lines 204-229): drop the
message when either coordinate is not a number (`typeof` guard); otherwise
`findByIdAndUpdate` the user and, when it resolved, broadcast
`positionsUpdate` with the updated document's fields; when the id does not
resolve, nothing is mutated and nothing is emitted. -/
def updatePosition (st : St) (userId : Nat) (lat lon : JSVal) :
    St × List Event :=
  match lat, lon with
  | .num la, .num lo =>
    match st.users.find? (fun u => u.id == userId) with
    | none => (st, [])
    | some u =>
      let u2 : User := { u with latitude := la, longitude := lo }
      ({ st with
          users := st.users.map (fun x => if x.id == userId then u2 else x) },
        [.positionsUpdate u2.id u2.name u2.latitude u2.longitude])
  | _, _ => (st, [])

/-- `sendAllMarkers` run at connection time (src/server.js lines 194-202):
the events sent directly (unicast) to the newly connected socket. -/
def sendAllMarkers (st : St) : List Event :=
  [.allMarkers st.markers]

/-- `io.emit`: deliver each broadcast event to every currently connected
socket, as (socket id, event) pairs. -/
def broadcastTo (sockets : List Nat) (es : List Event) :
    List (Nat × Event) :=
  es.flatMap (fun e => sockets.map (fun s => (s, e)))

/-- One inbound operation of the service: a push-channel connect or
disconnect, an HTTP request, or an `updatePosition` channel message. -/
inductive Op where
  | connect : Nat → Op
  | disconnect : Nat → Op
  | httpRegister : RegisterBody → Op
  | httpLogin : LoginBody → Op
  | httpCreateMarker : CreateMarkerBody → UploadedFiles → Op
  | httpEditMarker : Nat → EditMarkerBody → UploadedFiles → Op
  | msgUpdatePosition : Nat → JSVal → JSVal → Op
deriving DecidableEq, Repr

/-- The whole service: the document store plus the set (list) of currently
connected push-channel sockets. -/
structure Sys where
  st : St
  sockets : List Nat
deriving DecidableEq, Repr

/-- One atomic handler step: the next system state together with the events
delivered to individual sockets (unicast `allMarkers` on connect, `io.emit`
broadcasts on marker mutations and position updates). -/
def stepOp (sys : Sys) (op : Op) : Sys × List (Nat × Event) :=
  match op with
  | .connect sid =>
    ({ sys with sockets := sys.sockets ++ [sid] },
      (sendAllMarkers sys.st).map (fun e => (sid, e)))
  | .disconnect sid =>
    ({ sys with sockets := sys.sockets.filter (fun s => s ≠ sid) }, [])
  | .httpRegister b =>
    ({ sys with st := (register sys.st b).2 }, [])
  | .httpLogin _ => (sys, [])
  | .httpCreateMarker b files =>
    let r := createMarker sys.st b files
    ({ sys with st := r.2.1 }, broadcastTo sys.sockets r.2.2)
  | .httpEditMarker mid b files =>
    let r := editMarker sys.st mid b files
    ({ sys with st := r.2.1 }, broadcastTo sys.sockets r.2.2)
  | .msgUpdatePosition userId lat lon =>
    let r := updatePosition sys.st userId lat lon
    ({ sys with st := r.1 }, broadcastTo sys.sockets r.2)

/-- Run a sequence of operations, accumulating all per-socket deliveries. -/
def runOps (sys : Sys) : List Op → Sys × List (Nat × Event)
  | [] => (sys, [])
  | op :: ops =>
    let r1 := stepOp sys op
    let r2 := runOps r1.1 ops
    (r2.1, r1.2 ++ r2.2)

/-- The sequence of events a given socket receives over a run. -/
def deliveriesTo (sid : Nat) (sys : Sys) (ops : List Op) : List Event :=
  ((runOps sys ops).2.filter (fun p => p.1 == sid)).map (fun p => p.2)

/-! ## Helper lemmas -/

/-- Replacing every element satisfying `p` by a fixed `y` (itself satisfying
`p`) turns a successful `find? p` into `some y`: this is how `marker.save()`
and `findByIdAndUpdate` update the stored document found by id. -/
theorem find?_replace {α : Type} (p : α → Bool) (y : α) (hy : p y = true) :
    ∀ l : List α, (l.find? p).isSome →
      (l.map (fun x => if p x then y else x)).find? p = some y := by
  intro l
  induction l with
  | nil => intro h; simp [List.find?] at h
  | cons a l ih =>
    intro h
    by_cases hpa : p a = true
    · simp [List.find?, hpa, hy]
    · have hpa2 : p a = false := by
        cases hpb : p a with
        | true => exact absurd hpb hpa
        | false => rfl
      simp only [List.find?, hpa2] at h
      have h2 := ih h
      simp [List.find?_cons, hpa2, h2]

theorem applyTextEdits_id (b : EditMarkerBody) (m : Marker) :
    (applyTextEdits b m).id = m.id := by
  obtain ⟨t, c, col⟩ := b
  cases t <;> cases c <;> cases col <;> simp [applyTextEdits]

theorem applyTextEdits_title (b : EditMarkerBody) (m : Marker) :
    (applyTextEdits b m).title = b.title.getD m.title := by
  obtain ⟨t, c, col⟩ := b
  cases t <;> cases c <;> cases col <;> simp [applyTextEdits]

theorem applyTextEdits_comment (b : EditMarkerBody) (m : Marker) :
    (applyTextEdits b m).comment = b.comment.getD m.comment := by
  obtain ⟨t, c, col⟩ := b
  cases t <;> cases c <;> cases col <;> simp [applyTextEdits]

theorem applyTextEdits_color (b : EditMarkerBody) (m : Marker) :
    (applyTextEdits b m).color = b.color.getD m.color := by
  obtain ⟨t, c, col⟩ := b
  cases t <;> cases c <;> cases col <;> simp [applyTextEdits]

theorem applyTextEdits_photos (b : EditMarkerBody) (m : Marker) :
    (applyTextEdits b m).photos = m.photos := by
  obtain ⟨t, c, col⟩ := b
  cases t <;> cases c <;> cases col <;> simp [applyTextEdits]

theorem applyTextEdits_videos (b : EditMarkerBody) (m : Marker) :
    (applyTextEdits b m).videos = m.videos := by
  obtain ⟨t, c, col⟩ := b
  cases t <;> cases c <;> cases col <;> simp [applyTextEdits]

theorem appendUploads_id (files : UploadedFiles) (m : Marker) :
    (appendUploads files m).id = m.id := by
  obtain ⟨ph, vd⟩ := files
  cases ph <;> cases vd <;> simp [appendUploads]

theorem appendUploads_title (files : UploadedFiles) (m : Marker) :
    (appendUploads files m).title = m.title := by
  obtain ⟨ph, vd⟩ := files
  cases ph <;> cases vd <;> simp [appendUploads]

theorem appendUploads_comment (files : UploadedFiles) (m : Marker) :
    (appendUploads files m).comment = m.comment := by
  obtain ⟨ph, vd⟩ := files
  cases ph <;> cases vd <;> simp [appendUploads]

theorem appendUploads_color (files : UploadedFiles) (m : Marker) :
    (appendUploads files m).color = m.color := by
  obtain ⟨ph, vd⟩ := files
  cases ph <;> cases vd <;> simp [appendUploads]

theorem appendUploads_photos (files : UploadedFiles) (m : Marker) :
    (appendUploads files m).photos
      = m.photos ++ (files.photos.getD []).map uploadPath := by
  obtain ⟨ph, vd⟩ := files
  cases ph <;> cases vd <;> simp [appendUploads]

theorem appendUploads_videos (files : UploadedFiles) (m : Marker) :
    (appendUploads files m).videos
      = m.videos ++ (files.videos.getD []).map uploadPath := by
  obtain ⟨ph, vd⟩ := files
  cases ph <;> cases vd <;> simp [appendUploads]

/-! ## Claim theorems -/

/-- C1: for every login request, an unknown email and a failed stored-hash
comparison both yield status 400 with the very same message string
"Email ou mot de passe incorrect" (no distinction between the two cases);
when the email resolves and the comparison succeeds, the response is 200
with that user's id and name. -/
theorem login_invalid_credentials_uniform (st : St) (b : LoginBody) :
    (st.users.find? (fun u => u.email == b.email) = none →
      login st b = ⟨400, RespBody.msg "Email ou mot de passe incorrect"⟩) ∧
    (∀ u, st.users.find? (fun x => x.email == b.email) = some u →
      bcryptCompare b.password u.password = false →
      login st b = ⟨400, RespBody.msg "Email ou mot de passe incorrect"⟩) ∧
    (∀ u, st.users.find? (fun x => x.email == b.email) = some u →
      bcryptCompare b.password u.password = true →
      login st b = ⟨200, RespBody.userOut u.id u.name⟩) := by
  refine ⟨fun h => ?_, fun u h hc => ?_, fun u h hc => ?_⟩
  · simp [login, h]
  · simp [login, h, hc]
  · simp [login, h, hc]

/-- Witness for C1 on a one-user store: unknown email and wrong password
produce the identical 400 response; the correct pair logs in. -/
theorem login_invalid_credentials_uniform_witness :
    login ⟨[⟨0, "Alice", "a@b", bcryptHash "pw", 0, 0⟩], [], 1, 0⟩
        ⟨"z@b", "pw"⟩
      = ⟨400, RespBody.msg "Email ou mot de passe incorrect"⟩ ∧
    login ⟨[⟨0, "Alice", "a@b", bcryptHash "pw", 0, 0⟩], [], 1, 0⟩
        ⟨"a@b", "wrong"⟩
      = ⟨400, RespBody.msg "Email ou mot de passe incorrect"⟩ ∧
    login ⟨[⟨0, "Alice", "a@b", bcryptHash "pw", 0, 0⟩], [], 1, 0⟩
        ⟨"a@b", "pw"⟩
      = ⟨200, RespBody.userOut 0 "Alice"⟩ :=
  ⟨(login_invalid_credentials_uniform
      ⟨[⟨0, "Alice", "a@b", bcryptHash "pw", 0, 0⟩], [], 1, 0⟩
      ⟨"z@b", "pw"⟩).1 (by decide),
   (login_invalid_credentials_uniform
      ⟨[⟨0, "Alice", "a@b", bcryptHash "pw", 0, 0⟩], [], 1, 0⟩
      ⟨"a@b", "wrong"⟩).2.1 ⟨0, "Alice", "a@b", bcryptHash "pw", 0, 0⟩
     (by decide) (by decide),
   (login_invalid_credentials_uniform
      ⟨[⟨0, "Alice", "a@b", bcryptHash "pw", 0, 0⟩], [], 1, 0⟩
      ⟨"a@b", "pw"⟩).2.2 ⟨0, "Alice", "a@b", bcryptHash "pw", 0, 0⟩
     (by decide) (by decide)⟩

/-- C2: a register request whose email is already present in the user store
answers 400 with the duplicate-email message, creates no user, and leaves
the user count (indeed the whole store) unchanged. -/
theorem register_duplicate_email (st : St) (b : RegisterBody)
    (h : ∃ u ∈ st.users, u.email = b.email) :
    register st b = (⟨400, RespBody.msg "Email déjà utilisé"⟩, st) ∧
    (register st b).2.users.length = st.users.length := by
  have hsome : (st.users.find? (fun u => u.email == b.email)).isSome := by
    rw [List.find?_isSome]
    obtain ⟨u, hu, he⟩ := h
    exact ⟨u, hu, by simp [he]⟩
  obtain ⟨u, hu⟩ := Option.isSome_iff_exists.mp hsome
  constructor
  · simp [register, hu]
  · simp [register, hu]

/-- Witness for C2: re-registering the already-present email "a@b". -/
theorem register_duplicate_email_witness :
    register ⟨[⟨0, "Alice", "a@b", bcryptHash "pw", 0, 0⟩], [], 1, 0⟩
        ⟨"Bob", "a@b", some "other"⟩
      = (⟨400, RespBody.msg "Email déjà utilisé"⟩,
         ⟨[⟨0, "Alice", "a@b", bcryptHash "pw", 0, 0⟩], [], 1, 0⟩) ∧
    (register ⟨[⟨0, "Alice", "a@b", bcryptHash "pw", 0, 0⟩], [], 1, 0⟩
        ⟨"Bob", "a@b", some "other"⟩).2.users.length
      = (⟨[⟨0, "Alice", "a@b", bcryptHash "pw", 0, 0⟩], [], 1,
          0⟩ : St).users.length :=
  register_duplicate_email
    ⟨[⟨0, "Alice", "a@b", bcryptHash "pw", 0, 0⟩], [], 1, 0⟩
    ⟨"Bob", "a@b", some "other"⟩
    ⟨⟨0, "Alice", "a@b", bcryptHash "pw", 0, 0⟩, by decide, rfl⟩

/-- C5: an edit-marker request whose id resolves to no stored marker
answers 404 with the not-found message, leaves the store untouched, and
emits no broadcast at all (in particular no `updatedMarker`). -/
theorem editMarker_not_found (st : St) (mid : Nat) (b : EditMarkerBody)
    (files : UploadedFiles)
    (h : st.markers.find? (fun x => x.id == mid) = none) :
    editMarker st mid b files
      = (⟨404, RespBody.msg "Marqueur non trouvé"⟩, st, []) := by
  simp [editMarker, h]

/-- Witness for C5: editing marker id 7 in a store holding only id 0. -/
theorem editMarker_not_found_witness :
    editMarker
        ⟨[], [⟨0, JSNum.val 1, JSNum.val 2, "t", "c", "#ff0000", [], [],
          none⟩], 0, 1⟩
        7 ⟨some "new", none, none⟩ ⟨none, none⟩
      = (⟨404, RespBody.msg "Marqueur non trouvé"⟩,
         ⟨[], [⟨0, JSNum.val 1, JSNum.val 2, "t", "c", "#ff0000", [], [],
           none⟩], 0, 1⟩, []) :=
  editMarker_not_found
    ⟨[], [⟨0, JSNum.val 1, JSNum.val 2, "t", "c", "#ff0000", [], [],
      none⟩], 0, 1⟩
    7 ⟨some "new", none, none⟩ ⟨none, none⟩ (by decide)

/-- C7: an `updatePosition` message in which latitude or longitude is not of
runtime type number is silently dropped: the store is unchanged and nothing
is emitted (hence no `positionsUpdate` broadcast and no error to the
sender). -/
theorem updatePosition_non_numeric (st : St) (userId : Nat)
    (lat lon : JSVal)
    (h : lat.isNumber = false ∨ lon.isNumber = false) :
    updatePosition st userId lat lon = (st, []) := by
  cases lat <;> cases lon <;>
    simp_all [updatePosition, JSVal.isNumber]

/-- C3: editing an existing marker overwrites each of title, comment and
color exactly when the body carries that field (`Option.getD`: a present
value — the empty string included — overwrites, an absent field keeps the
stored value), the response is 200 with the updated document, and the
updated document is the one now stored under that id. -/
theorem editMarker_text_field_overwrite (st : St) (mid : Nat)
    (b : EditMarkerBody) (files : UploadedFiles) (m : Marker)
    (h : st.markers.find? (fun x => x.id == mid) = some m) :
    ∃ m2,
      (editMarker st mid b files).1 = ⟨200, RespBody.markerOut m2⟩ ∧
      (editMarker st mid b files).2.1.markers.find? (fun x => x.id == mid)
        = some m2 ∧
      m2.title = b.title.getD m.title ∧
      m2.comment = b.comment.getD m.comment ∧
      m2.color = b.color.getD m.color := by
  have hid : m.id = mid := by simpa using List.find?_some h
  refine ⟨appendUploads files (applyTextEdits b m), ?_, ?_, ?_, ?_, ?_⟩
  · simp [editMarker, h]
  · simp only [editMarker, h]
    apply find?_replace
    · simp [appendUploads_id, applyTextEdits_id, hid]
    · rw [h]; rfl
  · rw [appendUploads_title, applyTextEdits_title]
  · rw [appendUploads_comment, applyTextEdits_comment]
  · rw [appendUploads_color, applyTextEdits_color]

/-- Witness for C3: a present empty title overwrites, an absent comment is
kept, a present color overwrites. -/
theorem editMarker_text_field_overwrite_witness :
    ∃ m2,
      (editMarker
          ⟨[], [⟨0, JSNum.val 1, JSNum.val 2, "t", "c", "#ff0000", ["p1"],
            [], none⟩], 0, 1⟩
          0 ⟨some "", none, some "#00ff00"⟩ ⟨none, none⟩).1
        = ⟨200, RespBody.markerOut m2⟩ ∧
      (editMarker
          ⟨[], [⟨0, JSNum.val 1, JSNum.val 2, "t", "c", "#ff0000", ["p1"],
            [], none⟩], 0, 1⟩
          0 ⟨some "", none, some "#00ff00"⟩
          ⟨none, none⟩).2.1.markers.find? (fun x => x.id == 0) = some m2 ∧
      m2.title = (some "").getD "t" ∧
      m2.comment = (none : Option String).getD "c" ∧
      m2.color = (some "#00ff00").getD "#ff0000" :=
  editMarker_text_field_overwrite
    ⟨[], [⟨0, JSNum.val 1, JSNum.val 2, "t", "c", "#ff0000", ["p1"], [],
      none⟩], 0, 1⟩
    0 ⟨some "", none, some "#00ff00"⟩ ⟨none, none⟩
    ⟨0, JSNum.val 1, JSNum.val 2, "t", "c", "#ff0000", ["p1"], [], none⟩
    (by decide)

/-- C4: editing an existing marker appends the uploaded photo paths to the
end of the stored photos list (prior elements and order untouched; absent
upload leaves the list identical), and likewise for videos; the updated
document is returned and stored. -/
theorem editMarker_media_append (st : St) (mid : Nat)
    (b : EditMarkerBody) (files : UploadedFiles) (m : Marker)
    (h : st.markers.find? (fun x => x.id == mid) = some m) :
    ∃ m2,
      (editMarker st mid b files).1 = ⟨200, RespBody.markerOut m2⟩ ∧
      (editMarker st mid b files).2.1.markers.find? (fun x => x.id == mid)
        = some m2 ∧
      m2.photos = m.photos ++ (files.photos.getD []).map uploadPath ∧
      m2.videos = m.videos ++ (files.videos.getD []).map uploadPath ∧
      (files.photos = none → m2.photos = m.photos) ∧
      (files.videos = none → m2.videos = m.videos) := by
  have hid : m.id = mid := by simpa using List.find?_some h
  refine ⟨appendUploads files (applyTextEdits b m), ?_, ?_, ?_, ?_, ?_, ?_⟩
  · simp [editMarker, h]
  · simp only [editMarker, h]
    apply find?_replace
    · simp [appendUploads_id, applyTextEdits_id, hid]
    · rw [h]; rfl
  · rw [appendUploads_photos, applyTextEdits_photos]
  · rw [appendUploads_videos, applyTextEdits_videos]
  · intro hp
    rw [appendUploads_photos, applyTextEdits_photos, hp]
    simp
  · intro hv
    rw [appendUploads_videos, applyTextEdits_videos, hv]
    simp

/-- Witness for C4: 3 stored photos plus 2 uploads gives the original 3
followed by the 2 new paths; no video upload leaves videos untouched. -/
theorem editMarker_media_append_witness :
    ∃ m2,
      (editMarker
          ⟨[], [⟨0, JSNum.val 1, JSNum.val 2, "t", "c", "#ff0000",
            ["p1", "p2", "p3"], ["v1"], none⟩], 0, 1⟩
          0 ⟨none, none, none⟩ ⟨some ["n1", "n2"], none⟩).1
        = ⟨200, RespBody.markerOut m2⟩ ∧
      (editMarker
          ⟨[], [⟨0, JSNum.val 1, JSNum.val 2, "t", "c", "#ff0000",
            ["p1", "p2", "p3"], ["v1"], none⟩], 0, 1⟩
          0 ⟨none, none, none⟩
          ⟨some ["n1", "n2"], none⟩).2.1.markers.find?
          (fun x => x.id == 0) = some m2 ∧
      m2.photos
        = ["p1", "p2", "p3"]
            ++ ((some ["n1", "n2"]).getD []).map uploadPath ∧
      m2.videos
        = ["v1"] ++ ((none : Option (List String)).getD []).map uploadPath ∧
      ((some ["n1", "n2"]) = (none : Option (List String)) →
        m2.photos = ["p1", "p2", "p3"]) ∧
      ((none : Option (List String)) = none → m2.videos = ["v1"]) :=
  editMarker_media_append
    ⟨[], [⟨0, JSNum.val 1, JSNum.val 2, "t", "c", "#ff0000",
      ["p1", "p2", "p3"], ["v1"], none⟩], 0, 1⟩
    0 ⟨none, none, none⟩ ⟨some ["n1", "n2"], none⟩
    ⟨0, JSNum.val 1, JSNum.val 2, "t", "c", "#ff0000", ["p1", "p2", "p3"],
      ["v1"], none⟩
    (by decide)

/-- C6: creating a marker answers 201 with a document whose latitude and
longitude are the `parseFloat` of the supplied text fields and whose id is
the store-assigned one; exactly that document is broadcast as `newMarker`,
and every connected subscriber receives it. -/
theorem createMarker_contract (sys : Sys) (b : CreateMarkerBody)
    (files : UploadedFiles) :
    ∃ m : Marker,
      (createMarker sys.st b files).1 = ⟨201, RespBody.markerOut m⟩ ∧
      m.latitude = parseFloatOpt b.latitude ∧
      m.longitude = parseFloatOpt b.longitude ∧
      m.id = sys.st.nextMarkerId ∧
      (createMarker sys.st b files).2.2 = [Event.newMarker m] ∧
      ∀ s ∈ sys.sockets,
        (s, Event.newMarker m)
          ∈ (stepOp sys (Op.httpCreateMarker b files)).2 := by
  refine ⟨_, rfl, rfl, rfl, rfl, rfl, ?_⟩
  intro s hs
  simp only [stepOp, createMarker, broadcastTo, List.flatMap_cons,
    List.flatMap_nil, List.append_nil]
  exact List.mem_map.mpr ⟨s, hs, rfl⟩

/-- Witness for C6: latitude "48.85", longitude "2.35", title "Eiffel";
connected socket 7 receives the `newMarker` broadcast. -/
theorem createMarker_contract_witness :
    ∃ m : Marker,
      (createMarker ⟨[], [], 0, 0⟩
          ⟨some "48.85", some "2.35", some "Eiffel", none, none, none⟩
          ⟨none, none⟩).1
        = ⟨201, RespBody.markerOut m⟩ ∧
      m.latitude
        = parseFloatOpt (some "48.85") ∧
      m.longitude
        = parseFloatOpt (some "2.35") ∧
      m.id = 0 ∧
      (createMarker ⟨[], [], 0, 0⟩
          ⟨some "48.85", some "2.35", some "Eiffel", none, none, none⟩
          ⟨none, none⟩).2.2
        = [Event.newMarker m] ∧
      (7, Event.newMarker m)
        ∈ (stepOp ⟨⟨[], [], 0, 0⟩, [7]⟩
            (Op.httpCreateMarker
              ⟨some "48.85", some "2.35", some "Eiffel", none, none, none⟩
              ⟨none, none⟩)).2 := by
  obtain ⟨m, h1, h2, h3, h4, h5, h6⟩ :=
    createMarker_contract ⟨⟨[], [], 0, 0⟩, [7]⟩
      ⟨some "48.85", some "2.35", some "Eiffel", none, none, none⟩
      ⟨none, none⟩
  exact ⟨m, h1, h2, h3, h4, h5, h6 7 (by decide)⟩

/-- C8: a numeric `updatePosition` for a stored user updates that user's
coordinates in the store and broadcasts `positionsUpdate` with the user's
id, name and the new coordinates to every connected subscriber (the sender,
being a connected socket, included); for an unknown user id the store is
untouched and nothing is emitted. -/
theorem updatePosition_numeric_contract (sys : Sys) (userId : Nat)
    (la lo : Rat) :
    (∀ u, sys.st.users.find? (fun x => x.id == userId) = some u →
      (updatePosition sys.st userId (JSVal.num la) (JSVal.num lo)).2
        = [Event.positionsUpdate u.id u.name la lo] ∧
      (updatePosition sys.st userId (JSVal.num la)
          (JSVal.num lo)).1.users.find? (fun x => x.id == userId)
        = some { u with latitude := la, longitude := lo } ∧
      ∀ s ∈ sys.sockets,
        (s, Event.positionsUpdate u.id u.name la lo)
          ∈ (stepOp sys
              (Op.msgUpdatePosition userId (JSVal.num la)
                (JSVal.num lo))).2) ∧
    (sys.st.users.find? (fun x => x.id == userId) = none →
      updatePosition sys.st userId (JSVal.num la) (JSVal.num lo)
        = (sys.st, [])) := by
  constructor
  · intro u h
    have hid : u.id = userId := by simpa using List.find?_some h
    refine ⟨by simp [updatePosition, h], ?_, ?_⟩
    · simp only [updatePosition, h]
      apply find?_replace
      · simp [hid]
      · rw [h]; rfl
    · intro s hs
      simp only [stepOp, updatePosition, h, broadcastTo,
        List.flatMap_cons, List.flatMap_nil, List.append_nil]
      exact List.mem_map.mpr ⟨s, hs, rfl⟩
  · intro h
    simp [updatePosition, h]

/-- Witness for C8: socket 7 (the sender) receives the broadcast for the
stored user 0; the unknown id 9 produces no mutation and no event. -/
theorem updatePosition_numeric_contract_witness :
    ((updatePosition ⟨[⟨0, "Alice", "a@b", bcryptHash "pw", 0, 0⟩], [],
        1, 0⟩ 0 (JSVal.num 5) (JSVal.num 6)).2
      = [Event.positionsUpdate 0 "Alice" 5 6] ∧
    (updatePosition ⟨[⟨0, "Alice", "a@b", bcryptHash "pw", 0, 0⟩], [],
        1, 0⟩ 0 (JSVal.num 5) (JSVal.num 6)).1.users.find?
        (fun x => x.id == 0)
      = some ⟨0, "Alice", "a@b", bcryptHash "pw", 5, 6⟩ ∧
    (7, Event.positionsUpdate 0 "Alice" 5 6)
      ∈ (stepOp ⟨⟨[⟨0, "Alice", "a@b", bcryptHash "pw", 0, 0⟩], [], 1, 0⟩,
          [7]⟩ (Op.msgUpdatePosition 0 (JSVal.num 5) (JSVal.num 6))).2) ∧
    updatePosition ⟨[⟨0, "Alice", "a@b", bcryptHash "pw", 0, 0⟩], [], 1, 0⟩
        9 (JSVal.num 5) (JSVal.num 6)
      = (⟨[⟨0, "Alice", "a@b", bcryptHash "pw", 0, 0⟩], [], 1, 0⟩, []) := by
  have hA :=
    (updatePosition_numeric_contract
      ⟨⟨[⟨0, "Alice", "a@b", bcryptHash "pw", 0, 0⟩], [], 1, 0⟩, [7]⟩
      0 5 6).1 ⟨0, "Alice", "a@b", bcryptHash "pw", 0, 0⟩ (by decide)
  have hB :=
    (updatePosition_numeric_contract
      ⟨⟨[⟨0, "Alice", "a@b", bcryptHash "pw", 0, 0⟩], [], 1, 0⟩, [7]⟩
      9 5 6).2 (by decide)
  exact ⟨⟨hA.1, hA.2.1, hA.2.2 7 (by decide)⟩, hB⟩

/-- Witness for C7: latitude is the string "abc". -/
theorem updatePosition_non_numeric_witness :
    updatePosition ⟨[⟨0, "Alice", "a@b", bcryptHash "pw", 0, 0⟩], [], 1, 0⟩
        0 (JSVal.str "abc") (JSVal.num 5)
      = (⟨[⟨0, "Alice", "a@b", bcryptHash "pw", 0, 0⟩], [], 1, 0⟩, []) :=
  updatePosition_non_numeric
    ⟨[⟨0, "Alice", "a@b", bcryptHash "pw", 0, 0⟩], [], 1, 0⟩
    0 (JSVal.str "abc") (JSVal.num 5) (Or.inl (by decide))

/-- C10 counterexample: the duplicate-email check runs before the hashing
step, so a register request with an absent password but an already-taken
email answers 400, not the 500 the claim demands for every
absent-password request. -/
theorem register_absent_password_counterexample :
    (register ⟨[⟨0, "Alice", "a@b", bcryptHash "pw", 0, 0⟩], [], 1, 0⟩
        ⟨"Bob", "a@b", none⟩).1.status = 400 ∧
    ¬ (register ⟨[⟨0, "Alice", "a@b", bcryptHash "pw", 0, 0⟩], [], 1, 0⟩
        ⟨"Bob", "a@b", none⟩).1.status = 500 := by
  decide

/-- C10 (amended): a register request with an absent password whose email
is not already taken fails with status 500 (the hashing step rejecting on
`undefined`, caught by the route's try/catch) and creates no user. -/
theorem register_absent_password_server_error (st : St) (b : RegisterBody)
    (h1 : b.password = none)
    (h2 : st.users.find? (fun u => u.email == b.email) = none) :
    (register st b).1.status = 500 ∧ (register st b).2 = st := by
  constructor
  · simp [register, h2, h1]
  · simp [register, h2, h1]

/-- Witness for the amended C10: fresh email, absent password, empty
store. -/
theorem register_absent_password_server_error_witness :
    (register ⟨[], [], 0, 0⟩ ⟨"Bob", "b@b", none⟩).1.status = 500 ∧
    (register ⟨[], [], 0, 0⟩ ⟨"Bob", "b@b", none⟩).2
      = (⟨[], [], 0, 0⟩ : St) :=
  register_absent_password_server_error ⟨[], [], 0, 0⟩ ⟨"Bob", "b@b", none⟩
    rfl (by decide)

/-! ## Trace lemmas for the connection snapshot -/

theorem broadcastTo_mem_fst {sockets : List Nat} {es : List Event}
    {p : Nat × Event} (h : p ∈ broadcastTo sockets es) : p.1 ∈ sockets := by
  simp only [broadcastTo, List.mem_flatMap, List.mem_map] at h
  obtain ⟨e, _, s, hs, rfl⟩ := h
  exact hs

theorem broadcastTo_mem_snd {sockets : List Nat} {es : List Event}
    {p : Nat × Event} (h : p ∈ broadcastTo sockets es) : p.2 ∈ es := by
  simp only [broadcastTo, List.mem_flatMap, List.mem_map] at h
  obtain ⟨e, he, s, hs, rfl⟩ := h
  exact he

theorem filter_broadcastTo_not_mem (sid : Nat) (sockets : List Nat)
    (es : List Event) (h : sid ∉ sockets) :
    (broadcastTo sockets es).filter (fun p => p.1 == sid) = [] := by
  rw [List.filter_eq_nil_iff]
  intro p hp hbeq
  have h1 : p.1 ∈ sockets := broadcastTo_mem_fst hp
  have h2 : p.1 = sid := by simpa using hbeq
  exact h (h2 ▸ h1)

/-- The marker-creation broadcast never carries an `allMarkers` snapshot. -/
theorem createMarker_no_snapshot (st : St) (b : CreateMarkerBody)
    (files : UploadedFiles) :
    ∀ e ∈ (createMarker st b files).2.2, e.isAllMarkers = false := by
  simp [createMarker, Event.isAllMarkers]

/-- The marker-edit broadcast never carries an `allMarkers` snapshot. -/
theorem editMarker_no_snapshot (st : St) (mid : Nat) (b : EditMarkerBody)
    (files : UploadedFiles) :
    ∀ e ∈ (editMarker st mid b files).2.2, e.isAllMarkers = false := by
  cases hf : st.markers.find? (fun x => x.id == mid) with
  | none => simp [editMarker, hf]
  | some m => simp [editMarker, hf, Event.isAllMarkers]

/-- The position-update broadcast never carries an `allMarkers` snapshot. -/
theorem updatePosition_no_snapshot (st : St) (userId : Nat)
    (lat lon : JSVal) :
    ∀ e ∈ (updatePosition st userId lat lon).2, e.isAllMarkers = false := by
  cases lat with
  | num la =>
    cases lon with
    | num lo =>
      cases hf : st.users.find? (fun u => u.id == userId) with
      | none => simp [updatePosition, hf]
      | some u => simp [updatePosition, hf, Event.isAllMarkers]
    | str s => simp [updatePosition]
    | bool b => simp [updatePosition]
    | null => simp [updatePosition]
    | undef => simp [updatePosition]
  | str s => simp [updatePosition]
  | bool b => simp [updatePosition]
  | null => simp [updatePosition]
  | undef => simp [updatePosition]

theorem runOps_append (l1 l2 : List Op) :
    ∀ sys : Sys,
      runOps sys (l1 ++ l2)
        = ((runOps (runOps sys l1).1 l2).1,
           (runOps sys l1).2 ++ (runOps (runOps sys l1).1 l2).2) := by
  induction l1 with
  | nil => intro sys; simp [runOps]
  | cons op ops ih =>
    intro sys
    simp [runOps, ih (stepOp sys op).1, List.append_assoc]

/-- Before its connect operation a socket receives nothing: every delivery
of a run without `connect sid` targets a socket of the evolving socket set,
which never contains `sid`. -/
theorem deliveriesTo_before_connect (sid : Nat) :
    ∀ (ops : List Op) (sys : Sys), sid ∉ sys.sockets →
      Op.connect sid ∉ ops →
      deliveriesTo sid sys ops = [] ∧
        sid ∉ (runOps sys ops).1.sockets := by
  intro ops
  induction ops with
  | nil =>
    intro sys h1 _
    exact ⟨rfl, h1⟩
  | cons op ops ih =>
    intro sys h1 h2
    have hop : op ≠ Op.connect sid := by
      intro he; exact h2 (he ▸ List.mem_cons_self op ops)
    have hops : Op.connect sid ∉ ops := by
      intro he; exact h2 (List.mem_cons_of_mem op he)
    have hstep :
        (stepOp sys op).2.filter (fun p => p.1 == sid) = [] ∧
          sid ∉ (stepOp sys op).1.sockets := by
      cases op with
      | connect sid2 =>
        have hne : sid2 ≠ sid := fun he => hop (by rw [he])
        constructor
        · simp [stepOp, sendAllMarkers, hne]
        · simp [stepOp]
          exact ⟨h1, fun he => hne he.symm⟩
      | disconnect sid2 =>
        refine ⟨by simp [stepOp], ?_⟩
        intro he
        exact h1 (List.mem_of_mem_filter he)
      | httpRegister b => exact ⟨by simp [stepOp], h1⟩
      | httpLogin b => exact ⟨by simp [stepOp], h1⟩
      | httpCreateMarker b files =>
        exact ⟨filter_broadcastTo_not_mem sid sys.sockets _ h1, h1⟩
      | httpEditMarker mid b files =>
        exact ⟨filter_broadcastTo_not_mem sid sys.sockets _ h1, h1⟩
      | msgUpdatePosition uid lat lon =>
        exact ⟨filter_broadcastTo_not_mem sid sys.sockets _ h1, h1⟩
    have hrec := ih (stepOp sys op).1 hstep.2 hops
    constructor
    · simp only [deliveriesTo, runOps, List.filter_append,
        List.map_append] at *
      rw [hstep.1, hrec.1]
      simp
    · simpa only [runOps] using hrec.2

/-- After any operation sequence free of `connect sid`, no event delivered
to `sid` is an `allMarkers` snapshot: broadcasts never carry one, and other
sockets' connect snapshots are unicast to them. -/
theorem deliveriesTo_no_snapshot (sid : Nat) :
    ∀ (ops : List Op) (sys : Sys), Op.connect sid ∉ ops →
      ∀ e ∈ deliveriesTo sid sys ops, e.isAllMarkers = false := by
  intro ops
  induction ops with
  | nil =>
    intro sys _ e he
    simp [deliveriesTo, runOps] at he
  | cons op ops ih =>
    intro sys h2 e he
    have hop : op ≠ Op.connect sid := by
      intro heq; exact h2 (heq ▸ List.mem_cons_self op ops)
    have hops : Op.connect sid ∉ ops := by
      intro heq; exact h2 (List.mem_cons_of_mem op heq)
    simp only [deliveriesTo, runOps, List.filter_append, List.map_append,
      List.mem_append] at he
    rcases he with he | he
    · -- a delivery of the head step
      simp only [List.mem_map, List.mem_filter] at he
      obtain ⟨p, ⟨hp, hps⟩, rfl⟩ := he
      have hsid : p.1 = sid := by simpa using hps
      cases op with
      | connect sid2 =>
        have hne : sid2 ≠ sid := fun heq => hop (by rw [heq])
        simp [stepOp, sendAllMarkers] at hp
        rw [hp] at hsid
        exact absurd (by simpa using hsid) hne
      | disconnect sid2 => simp [stepOp] at hp
      | httpRegister b => simp [stepOp] at hp
      | httpLogin b => simp [stepOp] at hp
      | httpCreateMarker b files =>
        exact createMarker_no_snapshot sys.st b files p.2
          (broadcastTo_mem_snd hp)
      | httpEditMarker mid b files =>
        exact editMarker_no_snapshot sys.st mid b files p.2
          (broadcastTo_mem_snd hp)
      | msgUpdatePosition uid lat lon =>
        exact updatePosition_no_snapshot sys.st uid lat lon p.2
          (broadcastTo_mem_snd hp)
    · exact ih (stepOp sys op).1 hops e he

/-- C9: in any run, a fresh socket's connect step delivers exactly one
event — the `allMarkers` snapshot of the markers stored at that moment —
to that socket alone, and it is the first event that socket ever receives:
nothing precedes it, and no later delivery to that socket is an
`allMarkers` snapshot again. -/
theorem connect_allMarkers_snapshot (sys : Sys) (pre post : List Op)
    (sid : Nat) (h1 : sid ∉ sys.sockets) (h2 : Op.connect sid ∉ pre)
    (h3 : Op.connect sid ∉ post) :
    (stepOp (runOps sys pre).1 (Op.connect sid)).2
      = [(sid, Event.allMarkers (runOps sys pre).1.st.markers)] ∧
    ∃ rest,
      deliveriesTo sid sys (pre ++ Op.connect sid :: post)
        = Event.allMarkers (runOps sys pre).1.st.markers :: rest ∧
      ∀ e ∈ rest, e.isAllMarkers = false := by
  have hpre := deliveriesTo_before_connect sid pre sys h1 h2
  refine ⟨by simp [stepOp, sendAllMarkers], ?_⟩
  refine ⟨deliveriesTo sid
    (stepOp (runOps sys pre).1 (Op.connect sid)).1 post, ?_, ?_⟩
  · simp only [deliveriesTo, runOps_append, runOps, List.filter_append,
      List.map_append]
    have hA :
        ((runOps sys pre).2.filter (fun p => p.1 == sid)).map
          (fun p => p.2) = [] := hpre.1
    rw [hA]
    simp [stepOp, sendAllMarkers]
  · exact deliveriesTo_no_snapshot sid post _ h3

/-- Witness for C9: socket 7 connects to an idle service, then a marker is
created; 7 first receives the (empty) snapshot and afterwards only the
`newMarker` broadcast. -/
theorem connect_allMarkers_snapshot_witness :
    (stepOp (runOps ⟨⟨[], [], 0, 0⟩, []⟩ []).1 (Op.connect 7)).2
      = [(7, Event.allMarkers
            (runOps ⟨⟨[], [], 0, 0⟩, []⟩ []).1.st.markers)] ∧
    ∃ rest,
      deliveriesTo 7 ⟨⟨[], [], 0, 0⟩, []⟩
          ([] ++ Op.connect 7 ::
            [Op.httpCreateMarker
              ⟨some "48.85", some "2.35", some "Eiffel", none, none, none⟩
              ⟨none, none⟩])
        = Event.allMarkers
            (runOps ⟨⟨[], [], 0, 0⟩, []⟩ []).1.st.markers :: rest ∧
      ∀ e ∈ rest, e.isAllMarkers = false :=
  connect_allMarkers_snapshot ⟨⟨[], [], 0, 0⟩, []⟩ []
    [Op.httpCreateMarker
      ⟨some "48.85", some "2.35", some "Eiffel", none, none, none⟩
      ⟨none, none⟩]
    7 (by decide) (by decide) (by decide)

end Cartabon
